import Mathlib

/-!
Shallow embedding of the `house-predict-py` pipeline
(`config.py`, `house_analysis/data_processing.py`, `house_analysis/model.py`)
and proofs about its preprocessing → training → evaluation →
coefficient-rescaling → persistence stages.

Numeric modelling convention: Python/NumPy floating-point numbers are
modelled as exact rationals (every IEEE double is a rational); `pandas`
"NaN"/missing values are modelled with `Option`/a dedicated `Cell.na`
constructor.  File I/O is modelled with an explicit association list from
path strings to file contents.
-/

namespace HousePredict

/-! ## Configuration (`config.py`, lines 3–30) -/

/-- `CONFIG["required_cols"]`. -/
def requiredCols : List String := ["square_footage", "bedrooms", "price_thousands"]

/-- `CONFIG["feature_cols"]`. -/
def featureCols : List String := ["square_footage", "bedrooms"]

/-- `CONFIG["target_col"]`. -/
def targetCol : String := "price_thousands"

/-- `CONFIG["outlier_threshold"]` (3 standard deviations). -/
def outlierThreshold : ℚ := 3

/-- `CONFIG["test_size"]` (0.2). -/
def testSize : ℚ := 1 / 5

/-- `CONFIG["random_state"]` (42). -/
def randomState : ℕ := 42

/-! ## Error kinds

Modelled from the spec: `house_analysis/exceptions.py` is imported by every
module of the repository but is not part of the sources; per the spec
(§7 ERROR HANDLING DESIGN) there are exactly two top-level error kinds,
`DataProcessingError` and `ModelOperationError`, each carrying the
underlying cause in its message. -/

inductive PipelineError where
  | dataProcessing (msg : String)
  | modelOperation (msg : String)
deriving DecidableEq, Repr

/-! ## Data model -/

/-- One cell of a loaded table: a numeric value, a missing value (NaN), or a
raw non-numeric string (which `pd.to_numeric(errors="coerce")` coerces to
NaN). -/
inductive Cell where
  | num (q : ℚ)
  | na
  | text (s : String)
deriving DecidableEq, Repr

/-- `pd.to_numeric(·, errors="coerce")` on one cell: numeric values pass
through, everything else becomes missing. -/
def toNumeric : Cell → Option ℚ
  | Cell.num q => some q
  | Cell.na => none
  | Cell.text _ => none

/-- A `pandas.DataFrame`: an ordered column-name list and rows of cells
(each row is parallel to `cols`). -/
structure DataFrame where
  cols : List String
  rows : List (List Cell)
deriving DecidableEq, Repr

/-- The cell of `row` in column `c`, given the frame's column list
(`df[c]` for one row). -/
def cellAt (cols : List String) (row : List Cell) (c : String) : Cell :=
  ((cols.zip row).lookup c).getD Cell.na

/-- The numeric value of `row` in column `c` after coercion (0 as the
`getD` default; only used on rows already known to be non-missing). -/
def valueAt (cols : List String) (row : List Cell) (c : String) : ℚ :=
  (toNumeric (cellAt cols row c)).getD 0

/-! ## DataLoader (`data_processing.py`, `load_data`, lines 23–46)

The CSV source is modelled as `Option DataFrame`: `none` stands for a path
that does not exist or that `pd.read_csv` cannot read, `some df` for a
successfully parsed table.  The Python code raises `DataProcessingError`
both for the missing-file check and (re-wrapped by the enclosing
`try`/`except`) for the missing-column check; only the messages differ. -/

def fileMissingMsg : String := "file does not exists"

def missingColsMsg : String := "error loading data: columns missing"

def loadData (source : Option DataFrame) : Except PipelineError DataFrame :=
  match source with
  | none => Except.error (PipelineError.dataProcessing fileMissingMsg)
  | some df =>
      if requiredCols.all (fun c => decide (c ∈ df.cols)) then Except.ok df
      else Except.error (PipelineError.dataProcessing missingColsMsg)

/-! ## Preprocessor (`data_processing.py`, `preprocess_data`, lines 50–88) -/

/-- The numeric-coercion loop (lines 57–58): every required column of the
copied frame is passed through `pd.to_numeric(errors="coerce")`; other
columns are untouched. -/
def coerceRow (cols : List String) (row : List Cell) : List Cell :=
  (cols.zip row).map (fun p =>
    if p.1 ∈ requiredCols then
      match toNumeric p.2 with
      | some q => Cell.num q
      | none => Cell.na
    else p.2)

/-- A row with no missing value in any required column (the complement of
what `dropna(subset=required_cols)` removes, lines 63–65). -/
def nonMissing (cols : List String) (row : List Cell) : Bool :=
  requiredCols.all (fun c => (toNumeric (cellAt cols row c)).isSome)

/-- `processed_df.dropna(subset=CONFIG["required_cols"])` (the guarding
`isna().any().any()` test makes the drop a no-op exactly when it would not
remove anything, so the unconditional filter is equivalent). -/
def dropna (cols : List String) (rows : List (List Cell)) : List (List Cell) :=
  rows.filter (fun r => nonMissing cols r)

/-- `Series.mean()` of a column, as an exact rational (`[].sum / 0 = 0`
for the empty column, where pandas yields NaN; an empty frame has no rows
to drop anyway). -/
def sampleMean (xs : List ℚ) : ℚ := xs.sum / (xs.length : ℚ)

/-- `Series.std()` squared: the sample variance with the pandas default
`ddof = 1` denominator `n − 1`.  For `n ≤ 1` pandas yields NaN, every
comparison with which is false; here the rational division by zero (or the
zero numerator) yields 0, and the single value of a 1-row column equals
its mean, so in both models no row is dropped. -/
def sampleVar (xs : List ℚ) : ℚ :=
  ((xs.map (fun x => (x - sampleMean xs) ^ 2)).sum) / ((xs.length : ℚ) - 1)

/-- The (coerced numeric) values of column `c` over the current rows. -/
def colValues (cols : List String) (rows : List (List Cell)) (c : String) : List ℚ :=
  rows.map (fun r => valueAt cols r c)

/-- The outlier test of lines 79–83: Python computes
`std = sqrt(sampleVar)` in floating point and tests
`x < mean − k·std  ∨  x > mean + k·std`.  Over exact rationals the square
root is irrational, so the embedding uses the equivalent (for `0 ≤ k`)
squared form `(x − mean)² > k² · sampleVar`; theorem `isOutlier_iff_real`
proves this equivalence against the literal bounds with a real square
root. -/
def isOutlier (k : ℚ) (cols : List String) (rows : List (List Cell))
    (c : String) (r : List Cell) : Bool :=
  decide ((valueAt cols r c - sampleMean (colValues cols rows c)) ^ 2
    > k ^ 2 * sampleVar (colValues cols rows c))

/-- One iteration of the outlier loop (lines 68–86): mean and std are
computed over the current rows and the detected outliers are dropped
(`processed_df = processed_df[~outliers]`; the guarding `outliers.any()`
only skips a no-op filter). -/
def filterOutlierCol (k : ℚ) (cols : List String) (c : String)
    (rows : List (List Cell)) : List (List Cell) :=
  rows.filter (fun r => ! isOutlier k cols rows c r)

/-- The whole outlier loop: required columns processed one at a time, in
column-list order, each over the rows surviving the earlier columns. -/
def outlierPass (k : ℚ) (cols : List String) :
    List String → List (List Cell) → List (List Cell)
  | [], rows => rows
  | c :: cs, rows => outlierPass k cols cs (filterOutlierCol k cols c rows)

/-- `preprocess_data`: copy (value semantics), numeric coercion of the
required columns, missing-row removal, then the sequential outlier pass
with the configured threshold. -/
def preprocessData (df : DataFrame) : DataFrame :=
  { cols := df.cols
    rows := outlierPass outlierThreshold df.cols requiredCols
      (dropna df.cols (df.rows.map (coerceRow df.cols))) }

/-! ## Splitter (`data_processing.py`, `prepare_model_data`, lines 92–118)

`sklearn.model_selection.train_test_split(X, y, test_size, random_state)`
with a float `test_size` draws a pseudo-random permutation of the row
indices from `np.random.RandomState(random_state)`, takes the first
`ceil(test_size · n)` permuted indices as the test set and the remaining
`n − ceil(test_size · n)` as the training set.  The Mersenne-Twister
stream behind the permutation is modelled by a 64-bit linear congruential
generator driving a selection shuffle; the claims depend only on the
shuffle being a deterministic function of the seed that permutes the
index list, never on which permutation it is. -/

/-- One step of the modelled 64-bit PRNG (Knuth's MMIX multiplier). -/
def lcg (s : ℕ) : ℕ := (6364136223846793005 * s + 1442695040888963407) % (2 ^ 64)

/-- Selection shuffle driven by `lcg`: repeatedly pick a pseudo-random
position of the remaining list.  `fuel` is the list length at the top
call; it only serves structural termination. -/
def shuffleAux : ℕ → ℕ → List ℕ → List ℕ
  | 0, _, l => l
  | _ + 1, _, [] => []
  | fuel + 1, s, x :: xs =>
      let l := x :: xs
      let j := lcg s % l.length
      l.getD j 0 :: shuffleAux fuel (lcg s) (l.eraseIdx j)

/-- `np.random.RandomState(seed).permutation(n)` (modelled PRNG). -/
def permutedIndices (seed n : ℕ) : List ℕ := shuffleAux n seed (List.range n)

/-- `ceil(test_size * n_samples)`, the test-set size sklearn assigns for a
float `test_size` (`_validate_shuffle_split`). -/
def nTestCount (f : ℚ) (n : ℕ) : ℕ := (⌈f * (n : ℚ)⌉).toNat

/-- The index partition produced by the split. -/
structure SplitIdx where
  test : List ℕ
  train : List ℕ
deriving DecidableEq, Repr

def splitIndices (seed : ℕ) (f : ℚ) (n : ℕ) : SplitIdx :=
  let perm := permutedIndices seed n
  let k := nTestCount f n
  { test := perm.take k, train := perm.drop k }

/-- `ModelData` (`data_processing.py`, lines 14–19). -/
structure ModelData where
  X_trained : List (List ℚ)
  X_test : List (List ℚ)
  y_trained : List ℚ
  y_test : List ℚ
deriving DecidableEq, Repr

/-- `train_test_split(X, y, test_size=f, random_state=seed)`. -/
def trainTestSplit (seed : ℕ) (f : ℚ) (X : List (List ℚ)) (y : List ℚ) : ModelData :=
  let idx := splitIndices seed f X.length
  { X_trained := idx.train.map (fun i => X.getD i [])
    X_test := idx.test.map (fun i => X.getD i [])
    y_trained := idx.train.map (fun i => y.getD i 0)
    y_test := idx.test.map (fun i => y.getD i 0) }

/-- One row of `df[CONFIG["feature_cols"]].to_numpy()` (resp. any column
selection `sel`). -/
def extractRow (cols : List String) (sel : List String) (r : List Cell) : List ℚ :=
  sel.map (fun c => valueAt cols r c)

/-- `prepare_model_data` (lines 92–118). -/
def prepareModelData (df : DataFrame) : ModelData :=
  trainTestSplit randomState testSize
    (df.rows.map (extractRow df.cols featureCols))
    (df.rows.map (fun r => valueAt df.cols r targetCol))

/-! ## FeatureScaler and RegressionTrainer (`model.py`, lines 30–39) -/

/-- The fitted state of a `StandardScaler`: per-feature `mean_` and
`scale_` vectors; the fitted feature count `n_features_in_` is
`scale_.length`. -/
structure StandardScalerState where
  mean_ : List ℚ
  scale_ : List ℚ
deriving DecidableEq, Repr

/-- A fitted `LinearRegression`: `coef_` (scaled space) and `intercept_`. -/
structure LinearRegressionModel where
  coef_ : List ℚ
  intercept_ : ℚ
deriving DecidableEq, Repr

/-- `scaler.transform` on one row: `(x − mean_) / scale_` component-wise. -/
def scaleRow (s : StandardScalerState) (row : List ℚ) : List ℚ :=
  (row.zip (s.mean_.zip s.scale_)).map (fun p => (p.1 - p.2.1) / p.2.2)

/-- `model.predict` on one row: `row · coef_ + intercept_`. -/
def predictRow (m : LinearRegressionModel) (row : List ℚ) : ℚ :=
  ((m.coef_.zip row).map (fun p => p.1 * p.2)).sum + m.intercept_

/-- Mean of column `j` of a row-major matrix. -/
def colMean (X : List (List ℚ)) (j : ℕ) : ℚ :=
  sampleMean (X.map (fun r => r.getD j 0))

/-- Population variance (`ddof = 0`, the `StandardScaler` convention) of
column `j`. -/
def colPopVar (X : List (List ℚ)) (j : ℕ) : ℚ :=
  let xs := X.map (fun r => r.getD j 0)
  ((xs.map (fun x => (x - sampleMean xs) ^ 2)).sum) / (xs.length : ℚ)

/-- `StandardScaler().fit` on a matrix of `w` columns: `mean_` holds the
exact column means; `scale_` holds, entry for entry, the population
variance of the column (with the `StandardScaler` zero-variance guard
mapping 0 to 1).  The runtime stores `scale_ = sqrt(variance)` as a
floating-point number; the square root is irrational, so the embedding
stores the variance in its place — no theorem in this file depends on the
numeric values of `scale_`, only on its length (the fitted feature count)
and on identities proved for arbitrary scaler states. -/
def fitScaler (w : ℕ) (X : List (List ℚ)) : StandardScalerState :=
  { mean_ := (List.range w).map (colMean X)
    scale_ := (List.range w).map (fun j =>
      let v := colPopVar X j
      if v = 0 then 1 else v) }

/-- Entry `(i, j)` of the design matrix of the least-squares problem with
an appended all-ones intercept column. -/
def designEntry (w : ℕ) (X : List (List ℚ)) (i j : ℕ) : ℚ :=
  if j < w then (X.getD i []).getD j 0 else 1

/-- `LinearRegression().fit` on `w`-column data: ordinary least squares.
The runtime solves the problem by floating-point SVD; the embedding
solves the exact normal equations `(AᵀA)θ = Aᵀy` by Cramer's rule (for a
singular Gram matrix the rational division by the zero determinant yields
the zero vector, where sklearn returns a minimum-norm solution; no
theorem in this file depends on the fitted values). -/
def fitLinReg (w : ℕ) (X : List (List ℚ)) (y : List ℚ) : LinearRegressionModel :=
  let m := X.length
  let A : Matrix (Fin m) (Fin (w + 1)) ℚ := Matrix.of (fun i j => designEntry w X i j)
  let G : Matrix (Fin (w + 1)) (Fin (w + 1)) ℚ := A.transpose * A
  let b : Fin (w + 1) → ℚ := A.transpose.mulVec (fun i => y.getD i 0)
  let theta : Fin (w + 1) → ℚ := fun j => Matrix.cramerMap G b j / G.det
  { coef_ := (List.range w).map (fun j =>
      if h : j < w + 1 then theta ⟨j, h⟩ else 0)
    intercept_ := theta ⟨w, Nat.lt_succ_self w⟩ }

/-- `train_model` (`model.py`, lines 30–39): fit the scaler on the
training features, scale them, fit the regression on the scaled matrix. -/
def trainModel (data : ModelData) : LinearRegressionModel × StandardScalerState :=
  let scaler := fitScaler featureCols.length data.X_trained
  let X_scaled := data.X_trained.map (scaleRow scaler)
  let model := fitLinReg featureCols.length X_scaled data.y_trained
  (model, scaler)

/-! ## Evaluator (`model.py`, `evaluate_model`, lines 42–72) -/

/-- `sklearn.metrics.mean_squared_error`: the mean squared residual.  The
Python code stores `train_rmse = sqrt(mse)`; the square root of a rational
is irrational, so `ModelResult` stores the mean squared error and the
theorems state facts about `Real.sqrt` of it. -/
def mseScore (ytrue ypred : List ℚ) : ℚ :=
  ((ytrue.zip ypred).map (fun p => (p.1 - p.2) ^ 2)).sum / (ytrue.length : ℚ)

/-- `sklearn.metrics.r2_score`: `1 − SSres/SStot`, with sklearn's
degenerate-denominator convention (constant `y_true`: 1.0 for a perfect
fit, 0.0 otherwise). -/
def r2Score (ytrue ypred : List ℚ) : ℚ :=
  let num := ((ytrue.zip ypred).map (fun p => (p.1 - p.2) ^ 2)).sum
  let den := (ytrue.map (fun v => (v - sampleMean ytrue) ^ 2)).sum
  if den = 0 then (if num = 0 then 1 else 0) else 1 - num / den

/-- `ModelResult` (`model.py`, lines 18–27).  `train_mse`/`test_mse` hold
the squares of the stored `train_rmse`/`test_rmse` (see `mseScore`). -/
structure ModelResult where
  model : LinearRegressionModel
  scaler : StandardScalerState
  train_predictions : List ℚ
  test_predictions : List ℚ
  train_r2 : ℚ
  test_r2 : ℚ
  train_mse : ℚ
  test_mse : ℚ
deriving DecidableEq, Repr

/-- `evaluate_model` (lines 42–72): transform both splits with the
already-fitted scaler, predict, compute R² and (squared) RMSE for both. -/
def evaluateModel (data : ModelData) (model : LinearRegressionModel)
    (scaler : StandardScalerState) : ModelResult :=
  let trained_predictions := data.X_trained.map (fun r => predictRow model (scaleRow scaler r))
  let test_predictions := data.X_test.map (fun r => predictRow model (scaleRow scaler r))
  { model := model
    scaler := scaler
    train_predictions := trained_predictions
    test_predictions := test_predictions
    train_r2 := r2Score data.y_trained trained_predictions
    test_r2 := r2Score data.y_test test_predictions
    train_mse := mseScore data.y_trained trained_predictions
    test_mse := mseScore data.y_test test_predictions }

/-! ## FormulaExtractor (`model.py`, `get_model_formula`, lines 119–141) -/

/-- `get_model_formula`.  The coefficient loop computes
`coef_[i] / scale_[i]` for each `i`.  The intercept line then evaluates
`float(model.intercept_) - sum(model.coef_[i] * scaler.mean_ / scaler.scale_)`
where `i` is the Python loop variable left over from the coefficient
loop, i.e. `i = len(coef_) - 1`: the LAST scaled coefficient multiplies
every `mean_/scale_` ratio in the sum (for an empty `coef_` the Python
code would raise `NameError`; the embedding uses `getLastD 0`, a case no
theorem relies on since the pipeline always has two features). -/
def getModelFormula (result : ModelResult) : ℚ × List ℚ :=
  let model := result.model
  let scaler := result.scaler
  let coefficients := (List.range model.coef_.length).map
    (fun i => model.coef_.getD i 0 / scaler.scale_.getD i 0)
  let lastCoef := model.coef_.getLastD 0
  let intercept := model.intercept_ -
    ((scaler.mean_.zip scaler.scale_).map (fun p => lastCoef * p.1 / p.2)).sum
  (intercept, coefficients)

/-- The original-unit intercept as the spec states it (§4.7):
`intercept(raw) = intercept(scaled) − Σ_i coefficient_i(scaled) · mean_i / std_i`.
Stated from the spec's words, to be compared with `getModelFormula`. -/
def specRawIntercept (m : LinearRegressionModel) (s : StandardScalerState) : ℚ :=
  m.intercept_ - ((m.coef_.zip (s.mean_.zip s.scale_)).map
    (fun p => p.1 * p.2.1 / p.2.2)).sum

/-- Prediction in original units from an extracted formula:
`raw_features · coefficients(raw) + intercept(raw)`. -/
def rawPredict (intercept : ℚ) (coefs : List ℚ) (row : List ℚ) : ℚ :=
  ((coefs.zip row).map (fun p => p.1 * p.2)).sum + intercept

/-! ## Prediction on a new frame (`data_processing.py`, `make_predictions`,
lines 121–136) -/

/-- The message of the `ValueError` that `StandardScaler.transform` raises
when the input column count differs from the fitted `n_features_in_`. -/
def featureCountMsg : String :=
  "X has a different number of features than StandardScaler was fitted with"

/-- `scaler.transform` on a matrix of `w` columns: sklearn validates the
column count against the fitted feature count (`n_features_in_`, i.e.
`scale_.length`) and raises a `ValueError` on mismatch. -/
def scalerTransform (s : StandardScalerState) (w : ℕ) (X : List (List ℚ)) :
    Except String (List (List ℚ)) :=
  if w = s.scale_.length then Except.ok (X.map (scaleRow s))
  else Except.error featureCountMsg

/-- The wrapped error message of `make_predictions`. -/
def failedPredictMsg : String := "failed to make prediction: " ++ featureCountMsg

/-- `make_predictions` (lines 121–136): note line 128 passes
`df[CONFIG["required_cols"]]` — all three required columns, not the two
feature columns — to the scaler's transform; any exception is re-raised
as `ModelOperationError`. -/
def makePredictions (df : DataFrame) (model : LinearRegressionModel)
    (scaler : StandardScalerState) : Except PipelineError (List ℚ) :=
  match scalerTransform scaler requiredCols.length
      (df.rows.map (extractRow df.cols requiredCols)) with
  | Except.error e => Except.error (PipelineError.modelOperation ("failed to make prediction: " ++ e))
  | Except.ok Xs => Except.ok (Xs.map (predictRow model))

/-! ## ModelStore (`model.py`, `save_model` lines 75–115 and `load_model`
lines 144–176)

The file system is modelled as an association list from paths to file
contents, with a `writable` predicate abstracting the environment failures
(`open`/`os.makedirs`/`pickle.dump`/`json.dump` raising).  A Python write
that raises leaves the earlier writes of the same call in place, which the
embedding mirrors by always returning the (possibly partially updated)
state next to the optional error. -/

/-- The two on-disk artifacts: the pickled `{"model": …, "scaler": …}`
blob and the JSON metadata record. -/
inductive FileData where
  | modelBlob (model : LinearRegressionModel) (scaler : StandardScalerState)
  | metadataJson (coefficients : List ℚ) (intercept : ℚ)
      (feature : List String) (target : String)
      (train_r2 test_r2 train_mse test_mse : ℚ)
deriving DecidableEq, Repr

def FileSystem : Type := List (String × FileData)

/-- Writing a path (later writes shadow earlier ones). -/
def fsWrite (fs : FileSystem) (p : String) (d : FileData) : FileSystem := (p, d) :: fs

/-- Reading a path. -/
def fsRead (fs : FileSystem) (p : String) : Option FileData := fs.lookup p

/-- The pickled blob `{"model": result.model, "scaler": result.scaler}`
(lines 87–92). -/
def modelBlobOf (result : ModelResult) : FileData :=
  FileData.modelBlob result.model result.scaler

/-- The metadata record of lines 95–107, built from `get_model_formula`
(the stored `train_rmse`/`test_rmse` floats are the square roots of the
stored `_mse` fields, see `mseScore`). -/
def metadataOf (result : ModelResult) : FileData :=
  FileData.metadataJson (getModelFormula result).2 (getModelFormula result).1
    featureCols targetCol result.train_r2 result.test_r2
    result.train_mse result.test_mse

def saveErrMsg : String := "error saving model"

/-- `save_model` (lines 75–115): write the model blob, then compute the
formula and write the metadata; any exception is re-raised as
`ModelOperationError` — with no cleanup of the already-written blob. -/
def saveModel (writable : String → Bool) (result : ModelResult)
    (model_path metadata_path : String) (fs : FileSystem) :
    Option PipelineError × FileSystem :=
  if writable model_path then
    let fs1 := fsWrite fs model_path (modelBlobOf result)
    if writable metadata_path then
      (none, fsWrite fs1 metadata_path (metadataOf result))
    else
      (some (PipelineError.modelOperation saveErrMsg), fs1)
  else
    (some (PipelineError.modelOperation saveErrMsg), fs)

def loadErrMsg : String := "failed to load model"

/-- `load_model` (lines 144–176): missing model file, unpicklable model
file (e.g. JSON text), missing metadata file and non-JSON metadata (e.g.
pickle bytes) each raise `ModelOperationError`; otherwise the unpickled
model and scaler and the parsed metadata are returned. -/
def loadModel (fs : FileSystem) (model_path metadata_path : String) :
    Except PipelineError (LinearRegressionModel × StandardScalerState × FileData) :=
  match fsRead fs model_path with
  | none => Except.error (PipelineError.modelOperation loadErrMsg)
  | some (FileData.metadataJson _ _ _ _ _ _ _ _) =>
      Except.error (PipelineError.modelOperation loadErrMsg)
  | some (FileData.modelBlob m s) =>
      match fsRead fs metadata_path with
      | none => Except.error (PipelineError.modelOperation loadErrMsg)
      | some (FileData.modelBlob _ _) =>
          Except.error (PipelineError.modelOperation loadErrMsg)
      | some (FileData.metadataJson c i ft t r1 r2 m1 m2) =>
          Except.ok (m, s, FileData.metadataJson c i ft t r1 r2 m1 m2)

/-! ## Shared helper lemmas -/

theorem sumSqPairs_nonneg (l : List (ℚ × ℚ)) :
    0 ≤ (l.map (fun p => (p.1 - p.2) ^ 2)).sum := by
  refine List.sum_nonneg ?_
  intro x hx
  rcases List.mem_map.mp hx with ⟨p, _, rfl⟩
  positivity

theorem sumSqDev_nonneg (l : List ℚ) (m : ℚ) :
    0 ≤ (l.map (fun v => (v - m) ^ 2)).sum := by
  refine List.sum_nonneg ?_
  intro x hx
  rcases List.mem_map.mp hx with ⟨v, _, rfl⟩
  positivity

theorem mseScore_nonneg (ytrue ypred : List ℚ) : 0 ≤ mseScore ytrue ypred :=
  div_nonneg (sumSqPairs_nonneg _) (Nat.cast_nonneg _)

theorem r2Score_le_one (ytrue ypred : List ℚ) : r2Score ytrue ypred ≤ 1 := by
  unfold r2Score
  dsimp only
  split
  · split <;> norm_num
  · have hnum := sumSqPairs_nonneg (ytrue.zip ypred)
    have hden := sumSqDev_nonneg ytrue (sampleMean ytrue)
    have := div_nonneg hnum hden
    linarith

theorem outlierPass_sublist (k : ℚ) (cols : List String) :
    ∀ (cs : List String) (rows : List (List Cell)),
      (outlierPass k cols cs rows).Sublist rows
  | [], _ => List.Sublist.refl _
  | _ :: cs, rows =>
      (outlierPass_sublist k cols cs _).trans (List.filter_sublist rows)

/-! ## Claim theorems -/

/-- C5: preprocessing never adds rows: the cleaned frame keeps the input's
column list, and its row list is a sublist (an order-preserving selection,
hence a subset with no new rows) of the input's rows — coerced to numeric
in the required columns — that are non-missing in every required column;
moreover every surviving row is non-missing in every required column.
Purity of `preprocess_data` (the input frame untouched, `df.copy()` at
line 54) is inherent to the embedding's value semantics. -/
theorem preprocess_subset_nonMissing (df : DataFrame) :
    (preprocessData df).cols = df.cols ∧
    (preprocessData df).rows.Sublist
      ((df.rows.map (coerceRow df.cols)).filter (fun r => nonMissing df.cols r)) ∧
    (preprocessData df).rows.all (fun r => nonMissing df.cols r) = true := by
  refine ⟨rfl, outlierPass_sublist _ _ _ _, ?_⟩
  rw [List.all_eq_true]
  intro r hr
  have hsub : (preprocessData df).rows.Sublist
      ((df.rows.map (coerceRow df.cols)).filter (fun r => nonMissing df.cols r)) :=
    outlierPass_sublist _ _ _ _
  exact (List.mem_filter.mp (hsub.subset hr)).2

/-- C6: `load_data` fails with `DataProcessingError` exactly when the
source is missing/unreadable or a required column is absent; a source
containing every required column (extra columns allowed) loads
successfully and is returned unmodified. -/
theorem loadData_ok_iff (source : Option DataFrame) (df : DataFrame) :
    (loadData source = Except.ok df ↔
      source = some df ∧ ∀ c ∈ requiredCols, c ∈ df.cols) ∧
    (loadData (some df) = Except.error (PipelineError.dataProcessing missingColsMsg) ↔
      ∃ c ∈ requiredCols, c ∉ df.cols) ∧
    loadData none = Except.error (PipelineError.dataProcessing fileMissingMsg) := by
  refine ⟨?_, ?_, rfl⟩
  · cases source with
    | none => simp [loadData]
    | some d =>
        by_cases hc : ∀ c ∈ requiredCols, c ∈ d.cols
        · have : requiredCols.all (fun c => decide (c ∈ d.cols)) = true := by
            simpa [List.all_eq_true] using hc
          simp only [loadData, this, if_true]
          constructor
          · rintro h
            have hd : d = df := by simpa using h
            subst hd
            exact ⟨rfl, hc⟩
          · rintro ⟨h, _⟩
            have hd : d = df := by simpa using h
            subst hd
            rfl
        · have : requiredCols.all (fun c => decide (c ∈ d.cols)) = false := by
            simpa [List.all_eq_true] using hc
          simp only [loadData, this, Bool.false_eq_true, if_false]
          constructor
          · rintro h
            exact absurd h (by simp)
          · rintro ⟨h, hall⟩
            have hd : d = df := by simpa using h
            subst hd
            exact absurd hall hc
  · by_cases hc : ∀ c ∈ requiredCols, c ∈ df.cols
    · have : requiredCols.all (fun c => decide (c ∈ df.cols)) = true := by
        simpa [List.all_eq_true] using hc
      simp only [loadData, this, if_true]
      constructor
      · rintro h
        exact absurd h (by simp)
      · rintro ⟨c, hcr, habs⟩
        exact absurd (hc c hcr) habs
    · have : requiredCols.all (fun c => decide (c ∈ df.cols)) = false := by
        simpa [List.all_eq_true] using hc
      simp only [loadData, this, Bool.false_eq_true, if_false]
      constructor
      · intro _
        push_neg at hc
        rcases hc with ⟨c, hcr, hno⟩
        exact ⟨c, hcr, hno⟩
      · intro _
        trivial

/-- C7: the splitter is a deterministic function of the seed, the test
fraction and the input arrays: two runs on equal inputs with the same seed
produce identical train/test assignments. -/
theorem trainTestSplit_deterministic (seed : ℕ) (f : ℚ)
    (X X2 : List (List ℚ)) (y y2 : List ℚ) (hX : X = X2) (hy : y = y2) :
    trainTestSplit seed f X y = trainTestSplit seed f X2 y2 := by
  rw [hX, hy]

theorem trainTestSplit_deterministic_witness :
    [[(1 : ℚ), 2], [3, 4]] = [[(1 : ℚ), 2], [3, 4]] ∧
    [(5 : ℚ), 6] = [(5 : ℚ), 6] ∧
    trainTestSplit 42 (1 / 5) [[(1 : ℚ), 2], [3, 4]] [(5 : ℚ), 6] =
      trainTestSplit 42 (1 / 5) [[(1 : ℚ), 2], [3, 4]] [(5 : ℚ), 6] :=
  ⟨rfl, rfl, trainTestSplit_deterministic 42 (1 / 5) _ _ _ _ rfl rfl⟩

/-- C8: the evaluator's metrics are sane on every input: both R² values
are at most 1, both mean squared errors are non-negative, hence both RMSE
values (`Real.sqrt` of the stored mean squared errors) are non-negative. -/
theorem evaluateModel_metric_sanity (data : ModelData)
    (model : LinearRegressionModel) (scaler : StandardScalerState) :
    (evaluateModel data model scaler).train_r2 ≤ 1 ∧
    (evaluateModel data model scaler).test_r2 ≤ 1 ∧
    0 ≤ (evaluateModel data model scaler).train_mse ∧
    0 ≤ (evaluateModel data model scaler).test_mse ∧
    0 ≤ Real.sqrt ((evaluateModel data model scaler).train_mse : ℝ) ∧
    0 ≤ Real.sqrt ((evaluateModel data model scaler).test_mse : ℝ) :=
  ⟨r2Score_le_one _ _, r2Score_le_one _ _, mseScore_nonneg _ _,
    mseScore_nonneg _ _, Real.sqrt_nonneg _, Real.sqrt_nonneg _⟩

/-- C10: `make_predictions` feeds all three required columns to a scaler
that `train_model` fitted on the two feature columns, so the transform's
feature-count check always fails and the call always raises
`ModelOperationError` — it can never return predictions. -/
theorem makePredictions_always_fails (data : ModelData) (df : DataFrame) :
    requiredCols.length ≠ (trainModel data).2.scale_.length ∧
    makePredictions df (trainModel data).1 (trainModel data).2 =
      Except.error (PipelineError.modelOperation failedPredictMsg) := by
  have hlen : (trainModel data).2.scale_.length = 2 := by
    simp [trainModel, fitScaler, featureCols]
  constructor
  · rw [hlen]
    norm_num [requiredCols]
  · have hne : ¬ requiredCols.length = (trainModel data).2.scale_.length := by
      rw [hlen]
      norm_num [requiredCols]
    simp [makePredictions, scalerTransform, hne, failedPredictMsg]

/-! ## C1: the formula-extraction bug -/

/-- A fitted model with two distinct coefficients. -/
def demoModel : LinearRegressionModel := { coef_ := [1, 2], intercept_ := 0 }

/-- A fitted scaler whose first feature has non-zero mean. -/
def demoScaler : StandardScalerState := { mean_ := [1, 0], scale_ := [1, 1] }

/-- An `EvaluationResult` carrying `demoModel`/`demoScaler` (the metric
fields are irrelevant to the formula). -/
def demoResult : ModelResult :=
  { model := demoModel, scaler := demoScaler, train_predictions := [],
    test_predictions := [], train_r2 := 0, test_r2 := 0, train_mse := 0, test_mse := 0 }

/-- C1: `get_model_formula` does NOT satisfy the spec's intercept formula.
On the fitted pair `coef_ = [1, 2]`, `intercept_ = 0`, `mean_ = [1, 0]`,
`scale_ = [1, 1]` the code returns intercept −2 (its intercept sum reuses
the loop variable `i` left at the last index, so the last coefficient
multiplies every `mean/scale` ratio) while the spec formula
`intercept(scaled) − Σ_i coef_i·mean_i/std_i` gives −1; consequently on
the raw feature row `[0, 0]` the original-unit prediction from the
returned formula is −2 whereas the scaled-space prediction is −1, and
prediction equivalence fails — with the spec's intercept it would hold. -/
theorem getModelFormula_intercept_bug :
    (getModelFormula demoResult).1 = -2 ∧
    specRawIntercept demoModel demoScaler = -1 ∧
    predictRow demoModel (scaleRow demoScaler [0, 0]) = -1 ∧
    rawPredict (getModelFormula demoResult).1 (getModelFormula demoResult).2 [0, 0] ≠
      predictRow demoModel (scaleRow demoScaler [0, 0]) ∧
    rawPredict (specRawIntercept demoModel demoScaler) (getModelFormula demoResult).2 [0, 0] =
      predictRow demoModel (scaleRow demoScaler [0, 0]) := by
  norm_num [getModelFormula, specRawIntercept, rawPredict, predictRow, scaleRow,
    demoModel, demoScaler, demoResult, List.range_succ]

/-! ## C2: split sizing -/

theorem cons_eraseIdx_perm :
    ∀ (l : List ℕ) (j : ℕ), j < l.length → (l.getD j 0 :: l.eraseIdx j).Perm l
  | [], j, h => absurd h (by simp)
  | x :: xs, 0, _ => by simp
  | x :: xs, j + 1, h => by
      have ih := cons_eraseIdx_perm xs j (by simpa using h)
      have h1 : ((x :: xs).getD (j + 1) 0 :: (x :: xs).eraseIdx (j + 1))
          = (xs.getD j 0 :: x :: xs.eraseIdx j) := by
        simp
      rw [h1]
      exact (List.Perm.swap x (xs.getD j 0) (xs.eraseIdx j)).trans (ih.cons x)

theorem shuffleAux_perm : ∀ (fuel s : ℕ) (l : List ℕ), (shuffleAux fuel s l).Perm l
  | 0, _, _ => List.Perm.refl _
  | _ + 1, _, [] => List.Perm.refl _
  | fuel + 1, s, x :: xs => by
      have hj : lcg s % (x :: xs).length < (x :: xs).length :=
        Nat.mod_lt _ (by simp)
      rw [shuffleAux]
      exact ((shuffleAux_perm fuel (lcg s) _).cons _).trans
        (cons_eraseIdx_perm (x :: xs) _ hj)

theorem permutedIndices_perm (seed n : ℕ) :
    (permutedIndices seed n).Perm (List.range n) :=
  shuffleAux_perm n seed (List.range n)

theorem permutedIndices_length (seed n : ℕ) : (permutedIndices seed n).length = n := by
  simpa using (permutedIndices_perm seed n).length_eq

theorem permutedIndices_nodup (seed n : ℕ) : (permutedIndices seed n).Nodup :=
  ((permutedIndices_perm seed n).nodup_iff).mpr (List.nodup_range n)

theorem splitIndices_test_length (seed n : ℕ) (f : ℚ) :
    (splitIndices seed f n).test.length = min (nTestCount f n) n := by
  simp [splitIndices, permutedIndices_length]

/-- C2 counterexample: the claim's test-set size `round(n·f)` fails on the
code.  With 10 rows and test fraction 0.21 the split assigns
`ceil(10 · 0.21) = 3` rows to the test set, while `round(10 · 0.21) = 2`. -/
theorem splitIndices_round_counterexample :
    (splitIndices 42 (21 / 100) 10).test.length = 3 ∧
    (round ((21 / 100 : ℚ) * ((10 : ℕ) : ℚ))).toNat = 2 ∧
    ¬ ((splitIndices 42 (21 / 100) 10).test.length
        = (round ((21 / 100 : ℚ) * ((10 : ℕ) : ℚ))).toNat) := by
  have hceil : (⌈(21 / 100 : ℚ) * ((10 : ℕ) : ℚ)⌉ : ℤ) = 3 := by
    rw [Int.ceil_eq_iff]
    norm_num
  have hlen : (splitIndices 42 (21 / 100) 10).test.length = 3 := by
    rw [splitIndices_test_length, nTestCount, hceil]
    rfl
  have hround : (round ((21 / 100 : ℚ) * ((10 : ℕ) : ℚ))).toNat = 2 := by
    have h : round ((21 / 100 : ℚ) * ((10 : ℕ) : ℚ)) = 2 := by
      rw [round_eq]
      norm_num
    rw [h]
    rfl
  refine ⟨hlen, hround, ?_⟩
  rw [hlen, hround]
  norm_num

theorem nTestCount_le (f : ℚ) (n : ℕ) (h1 : f < 1) : nTestCount f n ≤ n := by
  rw [nTestCount, Int.toNat_le]
  have hmul : f * (n : ℚ) ≤ (n : ℚ) :=
    mul_le_of_le_one_left (Nat.cast_nonneg n) h1.le
  calc (⌈f * (n : ℚ)⌉ : ℤ) ≤ ⌈((n : ℕ) : ℚ)⌉ := Int.ceil_le_ceil hmul
    _ = (n : ℤ) := by rw [Int.ceil_natCast]

/-- C2 amended: for every input of `n` rows and every test fraction
`f ∈ (0,1)`, the split assigns exactly `ceil(n·f)` rows (sklearn's rule
for a float `test_size` — not `round(n·f)`) to the test set and the
remaining `n − ceil(n·f)` to the training set; the sizes sum to `n`, the
two index sets are disjoint, and together they are a permutation of all
`n` row indices.  The same sizes hold for the arrays
`train_test_split` returns. -/
theorem splitIndices_sizes (seed n : ℕ) (f : ℚ) (X : List (List ℚ)) (y : List ℚ)
    (h0 : 0 < f) (h1 : f < 1) :
    (splitIndices seed f n).test.length = nTestCount f n ∧
    (splitIndices seed f n).train.length = n - nTestCount f n ∧
    (splitIndices seed f n).test.length + (splitIndices seed f n).train.length = n ∧
    List.Disjoint (splitIndices seed f n).test (splitIndices seed f n).train ∧
    ((splitIndices seed f n).test ++ (splitIndices seed f n).train).Perm (List.range n) ∧
    (trainTestSplit seed f X y).X_test.length = nTestCount f X.length ∧
    (trainTestSplit seed f X y).X_trained.length = X.length - nTestCount f X.length := by
  have hle : nTestCount f n ≤ n := nTestCount_le f n h1
  have hlen := permutedIndices_length seed n
  refine ⟨?_, ?_, ?_, ?_, ?_, ?_, ?_⟩
  · rw [splitIndices_test_length]
    exact min_eq_left hle
  · simp [splitIndices, permutedIndices_length]
  · have ht : (splitIndices seed f n).test.length = nTestCount f n := by
      rw [splitIndices_test_length]
      exact min_eq_left hle
    have htr : (splitIndices seed f n).train.length = n - nTestCount f n := by
      simp [splitIndices, permutedIndices_length]
    rw [ht, htr]
    omega
  · exact List.disjoint_take_drop (permutedIndices_nodup seed n) (le_refl _)
  · rw [splitIndices]
    simpa [List.take_append_drop] using permutedIndices_perm seed n
  · have := nTestCount_le f X.length h1
    simp [trainTestSplit, splitIndices, permutedIndices_length, min_eq_left this]
  · simp [trainTestSplit, splitIndices, permutedIndices_length]

/-- C2 witness: the amended sizing theorem at seed 42, `f = 1/5` and a
concrete 3-row input. -/
theorem splitIndices_sizes_witness :
    (0 : ℚ) < 1 / 5 ∧ (1 / 5 : ℚ) < 1 ∧
    ((splitIndices 42 (1 / 5) 3).test.length = nTestCount (1 / 5) 3 ∧
     (splitIndices 42 (1 / 5) 3).train.length = 3 - nTestCount (1 / 5) 3 ∧
     (splitIndices 42 (1 / 5) 3).test.length + (splitIndices 42 (1 / 5) 3).train.length = 3 ∧
     List.Disjoint (splitIndices 42 (1 / 5) 3).test (splitIndices 42 (1 / 5) 3).train ∧
     ((splitIndices 42 (1 / 5) 3).test ++ (splitIndices 42 (1 / 5) 3).train).Perm (List.range 3) ∧
     (trainTestSplit 42 (1 / 5) [[(7 : ℚ)], [8], [9]] [(4 : ℚ), 5, 6]).X_test.length
        = nTestCount (1 / 5) [[(7 : ℚ)], [8], [9]].length ∧
     (trainTestSplit 42 (1 / 5) [[(7 : ℚ)], [8], [9]] [(4 : ℚ), 5, 6]).X_trained.length
        = [[(7 : ℚ)], [8], [9]].length - nTestCount (1 / 5) [[(7 : ℚ)], [8], [9]].length) :=
  ⟨by norm_num, by norm_num,
    splitIndices_sizes 42 3 (1 / 5) [[(7 : ℚ)], [8], [9]] [(4 : ℚ), 5, 6]
      (by norm_num) (by norm_num)⟩

/-! ## C4: sequential outlier filtering -/

theorem sampleVar_nonneg : ∀ xs : List ℚ, 0 ≤ sampleVar xs
  | [] => by norm_num [sampleVar]
  | [a] => by simp [sampleVar, sampleMean]
  | a :: b :: t => by
      apply div_nonneg (sumSqDev_nonneg _ _)
      have : (2 : ℚ) ≤ ((a :: b :: t).length : ℚ) := by
        simp only [List.length_cons]
        push_cast
        linarith [Nat.cast_nonneg (α := ℚ) t.length]
      linarith

/-- The code's decidable outlier test `(x − μ)² > k² · var` agrees, for a
non-negative threshold, with the spec's strict exclusion from the real
interval `[μ − k·σ, μ + k·σ]` where `σ = √var` is the sample standard
deviation the Python code computes in floating point. -/
theorem isOutlier_iff_real (k : ℚ) (hk : 0 ≤ k) (cols : List String)
    (rows : List (List Cell)) (c : String) (r : List Cell) :
    isOutlier k cols rows c r = true ↔
      ((valueAt cols r c : ℝ) <
          (sampleMean (colValues cols rows c) : ℝ)
            - (k : ℝ) * Real.sqrt ((sampleVar (colValues cols rows c) : ℚ) : ℝ) ∨
        (sampleMean (colValues cols rows c) : ℝ)
            + (k : ℝ) * Real.sqrt ((sampleVar (colValues cols rows c) : ℚ) : ℝ)
          < (valueAt cols r c : ℝ)) := by
  rw [isOutlier, decide_eq_true_iff]
  set x : ℚ := valueAt cols r c with hxdef
  set mu : ℚ := sampleMean (colValues cols rows c) with hmudef
  set v : ℚ := sampleVar (colValues cols rows c) with hvdef
  have hv0 : (0 : ℝ) ≤ (v : ℝ) := by exact_mod_cast sampleVar_nonneg _
  set s : ℝ := Real.sqrt (v : ℝ) with hsdef
  have hs0 : 0 ≤ s := Real.sqrt_nonneg _
  have hss : s ^ 2 = (v : ℝ) := Real.sq_sqrt hv0
  have hks : 0 ≤ (k : ℝ) * s := mul_nonneg (by exact_mod_cast hk) hs0
  constructor
  · intro h
    have hcast : ((k : ℝ)) ^ 2 * (v : ℝ) < ((x : ℝ) - (mu : ℝ)) ^ 2 := by
      exact_mod_cast h
    have hR : ((k : ℝ) * s) ^ 2 < ((x : ℝ) - (mu : ℝ)) ^ 2 := by
      calc ((k : ℝ) * s) ^ 2 = (k : ℝ) ^ 2 * s ^ 2 := by ring
        _ = (k : ℝ) ^ 2 * (v : ℝ) := by rw [hss]
        _ < _ := hcast
    have habs : (k : ℝ) * s < |(x : ℝ) - (mu : ℝ)| := by
      by_contra hcon
      push_neg at hcon
      have h2 := pow_le_pow_left₀ (abs_nonneg ((x : ℝ) - (mu : ℝ))) hcon 2
      rw [sq_abs] at h2
      linarith
    rcases lt_abs.mp habs with h1 | h1
    · right
      linarith
    · left
      linarith
  · intro h
    have habs : (k : ℝ) * s < |(x : ℝ) - (mu : ℝ)| := by
      rcases h with h1 | h1
      · exact lt_abs.mpr (Or.inr (by linarith))
      · exact lt_abs.mpr (Or.inl (by linarith))
    have hsq := pow_lt_pow_left₀ habs hks (two_ne_zero)
    rw [sq_abs] at hsq
    have hR : (k : ℝ) ^ 2 * (v : ℝ) < ((x : ℝ) - (mu : ℝ)) ^ 2 := by
      calc (k : ℝ) ^ 2 * (v : ℝ) = ((k : ℝ) * s) ^ 2 := by
            rw [mul_pow, hss]
        _ < _ := hsq
    exact_mod_cast hR

/-- C4: the outlier pass processes the required columns one at a time in
column order; for each column the mean and the sample standard deviation
are computed over only the rows surviving the earlier columns, and
exactly the rows whose value lies strictly outside
`[μ − k·σ, μ + k·σ]` (with `σ = √(sample variance)` over the reals) are
dropped; `preprocess_data` runs this pass with the configured threshold
`k = 3` over the required columns, after coercion and missing-row
removal. -/
theorem outlier_filtering_spec (k : ℚ) (cols : List String) (c : String)
    (cs : List String) (rows : List (List Cell)) (r : List Cell)
    (df : DataFrame) (hk : 0 ≤ k) :
    outlierPass k cols (c :: cs) rows
      = outlierPass k cols cs (filterOutlierCol k cols c rows) ∧
    outlierPass k cols [] rows = rows ∧
    (r ∈ filterOutlierCol k cols c rows ↔
      r ∈ rows ∧ isOutlier k cols rows c r = false) ∧
    (isOutlier k cols rows c r = true ↔
      ((valueAt cols r c : ℝ) <
          (sampleMean (colValues cols rows c) : ℝ)
            - (k : ℝ) * Real.sqrt ((sampleVar (colValues cols rows c) : ℚ) : ℝ) ∨
        (sampleMean (colValues cols rows c) : ℝ)
            + (k : ℝ) * Real.sqrt ((sampleVar (colValues cols rows c) : ℚ) : ℝ)
          < (valueAt cols r c : ℝ))) ∧
    preprocessData df
      = { cols := df.cols
          rows := outlierPass outlierThreshold df.cols requiredCols
            (dropna df.cols (df.rows.map (coerceRow df.cols))) } := by
  refine ⟨rfl, rfl, ?_, isOutlier_iff_real k hk cols rows c r, rfl⟩
  simp [filterOutlierCol, List.mem_filter]

/-- C4 witness: the filtering characterization at `k = 3` (the configured
threshold), a one-column frame and a concrete two-row table. -/
theorem outlier_filtering_spec_witness :
    (0 : ℚ) ≤ 3 ∧
    (outlierPass 3 ["x"] ("x" :: []) [[Cell.num 0], [Cell.num 10]]
        = outlierPass 3 ["x"] []
            (filterOutlierCol 3 ["x"] "x" [[Cell.num 0], [Cell.num 10]]) ∧
      outlierPass 3 ["x"] [] [[Cell.num 0], [Cell.num 10]] = [[Cell.num 0], [Cell.num 10]] ∧
      ([Cell.num 0] ∈ filterOutlierCol 3 ["x"] "x" [[Cell.num 0], [Cell.num 10]] ↔
        [Cell.num 0] ∈ [[Cell.num 0], [Cell.num 10]] ∧
          isOutlier 3 ["x"] [[Cell.num 0], [Cell.num 10]] "x" [Cell.num 0] = false) ∧
      (isOutlier 3 ["x"] [[Cell.num 0], [Cell.num 10]] "x" [Cell.num 0] = true ↔
        ((valueAt ["x"] [Cell.num 0] "x" : ℝ) <
            (sampleMean (colValues ["x"] [[Cell.num 0], [Cell.num 10]] "x") : ℝ)
              - ((3 : ℚ) : ℝ) * Real.sqrt
                  ((sampleVar (colValues ["x"] [[Cell.num 0], [Cell.num 10]] "x") : ℚ) : ℝ) ∨
          (sampleMean (colValues ["x"] [[Cell.num 0], [Cell.num 10]] "x") : ℝ)
              + ((3 : ℚ) : ℝ) * Real.sqrt
                  ((sampleVar (colValues ["x"] [[Cell.num 0], [Cell.num 10]] "x") : ℚ) : ℝ)
            < (valueAt ["x"] [Cell.num 0] "x" : ℝ))) ∧
      preprocessData { cols := ["x"], rows := [[Cell.num 5]] }
        = { cols := (DataFrame.mk ["x"] [[Cell.num 5]]).cols
            rows := outlierPass outlierThreshold (DataFrame.mk ["x"] [[Cell.num 5]]).cols
              requiredCols
              (dropna (DataFrame.mk ["x"] [[Cell.num 5]]).cols
                ((DataFrame.mk ["x"] [[Cell.num 5]]).rows.map
                  (coerceRow (DataFrame.mk ["x"] [[Cell.num 5]]).cols))) }) :=
  ⟨by norm_num,
    outlier_filtering_spec 3 ["x"] "x" [] [[Cell.num 0], [Cell.num 10]] [Cell.num 0]
      { cols := ["x"], rows := [[Cell.num 5]] } (by norm_num)⟩

/-! ## C3 and C9: ModelStore -/

theorem fsRead_write_self (fs : FileSystem) (p : String) (d : FileData) :
    fsRead (fsWrite fs p d) p = some d := by
  simp [fsRead, fsWrite, List.lookup]

theorem fsRead_write_ne (fs : FileSystem) (p q : String) (d : FileData)
    (h : q ≠ p) : fsRead (fsWrite fs p d) q = fsRead fs q := by
  have hb : (q == p) = false := beq_eq_false_iff_ne.mpr h
  simp [fsRead, fsWrite, List.lookup, hb]

/-- C3: round-trip persistence.  When both paths are writable and
distinct, saving the evaluation result succeeds, loading the saved pair
returns exactly the original model and scaler (and the saved metadata),
and therefore the loaded pair's predictions on every row of the train and
of the test split coincide with the original result's stored
predictions. -/
theorem save_load_roundtrip (data : ModelData) (model : LinearRegressionModel)
    (scaler : StandardScalerState) (writable : String → Bool)
    (mp dp : String) (fs : FileSystem)
    (h1 : writable mp = true) (h2 : writable dp = true) (hne : mp ≠ dp) :
    (saveModel writable (evaluateModel data model scaler) mp dp fs).1 = none ∧
    loadModel (saveModel writable (evaluateModel data model scaler) mp dp fs).2 mp dp
      = Except.ok (model, scaler, metadataOf (evaluateModel data model scaler)) ∧
    data.X_trained.map (fun r => predictRow model (scaleRow scaler r))
      = (evaluateModel data model scaler).train_predictions ∧
    data.X_test.map (fun r => predictRow model (scaleRow scaler r))
      = (evaluateModel data model scaler).test_predictions := by
  have hsave : saveModel writable (evaluateModel data model scaler) mp dp fs
      = (none,
          fsWrite (fsWrite fs mp (modelBlobOf (evaluateModel data model scaler))) dp
            (metadataOf (evaluateModel data model scaler))) := by
    simp [saveModel, h1, h2]
  have hrm : fsRead (fsWrite (fsWrite fs mp (modelBlobOf (evaluateModel data model scaler))) dp
        (metadataOf (evaluateModel data model scaler))) mp
      = some (modelBlobOf (evaluateModel data model scaler)) := by
    rw [fsRead_write_ne _ _ _ _ hne]
    exact fsRead_write_self _ _ _
  have hrd : fsRead (fsWrite (fsWrite fs mp (modelBlobOf (evaluateModel data model scaler))) dp
        (metadataOf (evaluateModel data model scaler))) dp
      = some (metadataOf (evaluateModel data model scaler)) :=
    fsRead_write_self _ _ _
  refine ⟨by rw [hsave], ?_, rfl, rfl⟩
  rw [hsave]
  simp only [loadModel, hrm, hrd]
  simp only [modelBlobOf, metadataOf]
  rfl

/-- C3 witness: the round trip at a concrete result, the configured file
names and an empty file system. -/
theorem save_load_roundtrip_witness :
    ((fun _ : String => true) "housing_model.pkl" = true) ∧
    ((fun _ : String => true) "housing_model_metadata.json" = true) ∧
    "housing_model.pkl" ≠ "housing_model_metadata.json" ∧
    ((saveModel (fun _ => true)
        (evaluateModel (ModelData.mk [[1]] [[2]] [3] [4]) demoModel demoScaler)
        "housing_model.pkl" "housing_model_metadata.json" []).1 = none ∧
    loadModel (saveModel (fun _ => true)
        (evaluateModel (ModelData.mk [[1]] [[2]] [3] [4]) demoModel demoScaler)
        "housing_model.pkl" "housing_model_metadata.json" []).2
        "housing_model.pkl" "housing_model_metadata.json"
      = Except.ok (demoModel, demoScaler,
          metadataOf (evaluateModel (ModelData.mk [[1]] [[2]] [3] [4]) demoModel demoScaler)) ∧
    (ModelData.mk [[(1 : ℚ)]] [[2]] [3] [4]).X_trained.map
        (fun r => predictRow demoModel (scaleRow demoScaler r))
      = (evaluateModel (ModelData.mk [[1]] [[2]] [3] [4]) demoModel demoScaler).train_predictions ∧
    (ModelData.mk [[(1 : ℚ)]] [[2]] [3] [4]).X_test.map
        (fun r => predictRow demoModel (scaleRow demoScaler r))
      = (evaluateModel (ModelData.mk [[1]] [[2]] [3] [4]) demoModel demoScaler).test_predictions) :=
  ⟨rfl, rfl, by decide,
    save_load_roundtrip (ModelData.mk [[1]] [[2]] [3] [4]) demoModel demoScaler
      (fun _ => true) "housing_model.pkl" "housing_model_metadata.json" []
      rfl rfl (by decide)⟩

/-- C9 counterexample: the save of a pair is not atomic.  With the model
path writable and the metadata path not, `save_model` raises
`ModelOperationError` yet leaves the freshly written model artifact on
disk with no metadata record next to it — the claim's "neither file is
left newly written" fails. -/
theorem saveModel_not_atomic_counterexample :
    (saveModel (fun p => p == "housing_model.pkl") demoResult
        "housing_model.pkl" "housing_model_metadata.json" []).1
      = some (PipelineError.modelOperation saveErrMsg) ∧
    fsRead (saveModel (fun p => p == "housing_model.pkl") demoResult
        "housing_model.pkl" "housing_model_metadata.json" []).2 "housing_model.pkl"
      = some (modelBlobOf demoResult) ∧
    fsRead (saveModel (fun p => p == "housing_model.pkl") demoResult
        "housing_model.pkl" "housing_model_metadata.json" []).2
        "housing_model_metadata.json"
      = none := by
  simp [saveModel, fsWrite, fsRead, List.lookup]

/-- C9 amended: `save_model` writes the model artifact first and the
metadata record second, with no cleanup: on success both files are
written; every failure raises `ModelOperationError`; a failure before the
model write leaves the file system unchanged, but a failure at the
metadata step leaves the just-written model artifact in place without its
metadata. -/
theorem saveModel_characterization (writable : String → Bool) (result : ModelResult)
    (mp dp : String) (fs : FileSystem) (hne : mp ≠ dp) :
    ((saveModel writable result mp dp fs).1 = none ↔
      writable mp = true ∧ writable dp = true) ∧
    ((saveModel writable result mp dp fs).1 = none ∨
      (saveModel writable result mp dp fs).1
        = some (PipelineError.modelOperation saveErrMsg)) ∧
    (writable mp = true → writable dp = true →
      fsRead (saveModel writable result mp dp fs).2 mp = some (modelBlobOf result) ∧
      fsRead (saveModel writable result mp dp fs).2 dp = some (metadataOf result)) ∧
    (writable mp = true → writable dp = false →
      (saveModel writable result mp dp fs).1
          = some (PipelineError.modelOperation saveErrMsg) ∧
      fsRead (saveModel writable result mp dp fs).2 mp = some (modelBlobOf result) ∧
      fsRead (saveModel writable result mp dp fs).2 dp = fsRead fs dp) ∧
    (writable mp = false →
      saveModel writable result mp dp fs
        = (some (PipelineError.modelOperation saveErrMsg), fs)) := by
  have hdm : dp ≠ mp := fun h => hne h.symm
  cases hm : writable mp <;> cases hd : writable dp <;>
    simp [saveModel, hm, hd, fsRead_write_self, fsRead_write_ne _ _ _ _ hne,
      fsRead_write_ne _ _ _ _ hdm]

/-- C9 witness: the characterization at a concrete result, the configured
file names and an empty file system. -/
theorem saveModel_characterization_witness :
    "housing_model.pkl" ≠ "housing_model_metadata.json" ∧
    (((saveModel (fun _ => true) demoResult
        "housing_model.pkl" "housing_model_metadata.json" []).1 = none ↔
      (fun _ : String => true) "housing_model.pkl" = true ∧
        (fun _ : String => true) "housing_model_metadata.json" = true) ∧
    ((saveModel (fun _ => true) demoResult
        "housing_model.pkl" "housing_model_metadata.json" []).1 = none ∨
      (saveModel (fun _ => true) demoResult
          "housing_model.pkl" "housing_model_metadata.json" []).1
        = some (PipelineError.modelOperation saveErrMsg)) ∧
    ((fun _ : String => true) "housing_model.pkl" = true →
      (fun _ : String => true) "housing_model_metadata.json" = true →
      fsRead (saveModel (fun _ => true) demoResult
          "housing_model.pkl" "housing_model_metadata.json" []).2 "housing_model.pkl"
        = some (modelBlobOf demoResult) ∧
      fsRead (saveModel (fun _ => true) demoResult
          "housing_model.pkl" "housing_model_metadata.json" []).2
          "housing_model_metadata.json"
        = some (metadataOf demoResult)) ∧
    ((fun _ : String => true) "housing_model.pkl" = true →
      (fun _ : String => true) "housing_model_metadata.json" = false →
      (saveModel (fun _ => true) demoResult
          "housing_model.pkl" "housing_model_metadata.json" []).1
          = some (PipelineError.modelOperation saveErrMsg) ∧
      fsRead (saveModel (fun _ => true) demoResult
          "housing_model.pkl" "housing_model_metadata.json" []).2 "housing_model.pkl"
        = some (modelBlobOf demoResult) ∧
      fsRead (saveModel (fun _ => true) demoResult
          "housing_model.pkl" "housing_model_metadata.json" []).2
          "housing_model_metadata.json"
        = fsRead [] "housing_model_metadata.json") ∧
    ((fun _ : String => true) "housing_model.pkl" = false →
      saveModel (fun _ => true) demoResult
          "housing_model.pkl" "housing_model_metadata.json" []
        = (some (PipelineError.modelOperation saveErrMsg), []))) :=
  ⟨by decide,
    saveModel_characterization (fun _ => true) demoResult
      "housing_model.pkl" "housing_model_metadata.json" [] (by decide)⟩

end HousePredict
